import Mathlib

/-!
Verification of the AR_tracker IVT notebook (`notebooks/1_compute_IVT.ipynb`).

The notebook checks that the two input files exist, loads the u- and v-
components of the vertically integrated vapor flux, computes their pointwise
magnitude `ivt = np.ma.sqrt(uflux.data*uflux.data + vflux.data*vflux.data)`,
wraps the result in an `NCVAR` carrying the u field's axes and a fixed
attribute block, saves it with `funcs.saveNC`, and plots time step 100 of
all three fields.

Data arrays are modelled as three-dimensional masked arrays over `ℝ`
(a masked cell is `none`), with numpy broadcasting semantics for the
element-wise operations.  The `ipart.utils.funcs` helpers (`NCVAR`,
`readNC`, `saveNC`) and the plotting helpers are not part of the notebook
source; they are modelled from the specification and marked as such.
-/

namespace ARTracker

/-- A three-dimensional masked numeric array modelling a numpy masked array
of shape (time, latitude, longitude): a cell holds `none` when masked and
`some x` otherwise. -/
structure Arr3 where
  nt : Nat
  nlat : Nat
  nlon : Nat
  val : Nat → Nat → Nat → Option ℝ

/-- Index adjustment of numpy broadcasting along one dimension: an operand
of extent 1 along a dimension is always read at index 0 there. -/
def bdim (d i : Nat) : Nat := if d = 1 then 0 else i

/-- Broadcast compatibility of two extents under the numpy rule: equal, or
one of them is 1. -/
def compatDim (a b : Nat) : Prop := a = b ∨ a = 1 ∨ b = 1

instance (a b : Nat) : Decidable (compatDim a b) := by
  unfold compatDim; infer_instance

/-- The shapes of two arrays are broadcast compatible in all three
dimensions. -/
def compat3 (a b : Arr3) : Prop :=
  compatDim a.nt b.nt ∧ compatDim a.nlat b.nlat ∧ compatDim a.nlon b.nlon

instance (a b : Arr3) : Decidable (compat3 a b) := by
  unfold compat3; infer_instance

/-- The two arrays have identical shapes. -/
def sameShape (a b : Arr3) : Prop :=
  a.nt = b.nt ∧ a.nlat = b.nlat ∧ a.nlon = b.nlon

instance (a b : Arr3) : Decidable (sameShape a b) := by
  unfold sameShape; infer_instance

/-- Element-wise combination of two masked arrays after numpy broadcasting:
the result has the dimension-wise maximum shape, and a cell is masked
whenever either operand cell is masked. -/
def bcast2 (f : ℝ → ℝ → ℝ) (a b : Arr3) : Arr3 where
  nt := max a.nt b.nt
  nlat := max a.nlat b.nlat
  nlon := max a.nlon b.nlon
  val := fun t i j =>
    Option.map₂ f (a.val (bdim a.nt t) (bdim a.nlat i) (bdim a.nlon j))
      (b.val (bdim b.nt t) (bdim b.nlat i) (bdim b.nlon j))

/-- Fatal error kinds of the pipeline. -/
inductive PipeError where
  | missingInputFile (msg : String)
  | variableNotFound (varid : String)
  | broadcastError
  | indexError
  deriving DecidableEq

/-- Element-wise binary operation on numpy masked arrays: broadcasts when
the shapes are compatible and raises a ValueError from the numeric layer
otherwise. -/
def elemwise2 (f : ℝ → ℝ → ℝ) (a b : Arr3) : Except PipeError Arr3 :=
  if compat3 a b then .ok (bcast2 f a b) else .error .broadcastError

/-- Element-wise masked square root, modelling `np.ma.sqrt`: masked cells
stay masked, and a cell outside the domain of sqrt (a negative value)
becomes masked. -/
noncomputable def ma_sqrt (a : Arr3) : Arr3 where
  nt := a.nt
  nlat := a.nlat
  nlon := a.nlon
  val := fun t i j =>
    (a.val t i j).bind fun x => if x < 0 then none else some (Real.sqrt x)

/-- The magnitude computation of the notebook:
`np.ma.sqrt(uflux.data*uflux.data + vflux.data*vflux.data)`. -/
noncomputable def ivtRaw (u v : Arr3) : Except PipeError Arr3 := do
  let uu ← elemwise2 (fun x y => x * y) u u
  let vv ← elemwise2 (fun x y => x * y) v v
  let s ← elemwise2 (fun x y => x + y) uu vv
  pure (ma_sqrt s)

/-- The array the magnitude computation produces when broadcasting
succeeds. -/
noncomputable def ivtArr (u v : Arr3) : Arr3 :=
  ma_sqrt (bcast2 (fun x y => x + y)
    (bcast2 (fun x y => x * y) u u) (bcast2 (fun x y => x * y) v v))

/-- A coordinate axis: a name together with its ordered values. -/
structure Axis where
  name : String
  values : List ℚ
  deriving DecidableEq

/-- Modelled from the spec: `ipart.utils.funcs.NCVAR` (not under src/)
packages a data array with its coordinate axes, ordered (time, latitude,
longitude), and a free-form attribute mapping; the `units` object
attribute is present exactly when the attribute mapping carries a units
entry. -/
structure NCVAR where
  data : Arr3
  id : String
  axislist : List Axis
  attributes : List (String × String)
  units : Option String

/-- Modelled from the spec: the `funcs.NCVAR(data, id, axislist,
attributes)` constructor; the `units` object attribute is looked up from
the attribute mapping. -/
def mkNCVAR (data : Arr3) (id : String) (axislist : List Axis)
    (attributes : List (String × String)) : NCVAR :=
  ⟨data, id, axislist, attributes, attributes.lookup "units"⟩

/-- Python `getattr(v, "units", dflt)`: the units attribute when present,
the default otherwise. -/
def getattrUnits (v : NCVAR) (dflt : String) : String := v.units.getD dflt

/-- The attribute block the notebook passes to `funcs.NCVAR` for the
derived field. -/
def ivtAttrs (uflux : NCVAR) : List (String × String) :=
  [("name", "ivt"),
   ("long_name", "integrated vapor transport (IVT)"),
   ("standard_name", "integrated_vapor_transport"),
   ("title", "integrated vapor transport (IVT)"),
   ("units", getattrUnits uflux "")]

/-- The derived IVT field:
`funcs.NCVAR(ivt, "ivt", uflux.axislist, attrs)`. -/
noncomputable def ivtVar (uflux vflux : NCVAR) : NCVAR :=
  mkNCVAR (ivtArr uflux.data vflux.data) "ivt" uflux.axislist (ivtAttrs uflux)

/-- The compute step of the notebook on the two loaded fields. -/
noncomputable def computeIVT (uflux vflux : NCVAR) : Except PipeError NCVAR :=
  (ivtRaw uflux.data vflux.data).map fun d =>
    mkNCVAR d "ivt" uflux.axislist (ivtAttrs uflux)

/-- Modelled from the spec: a self-describing gridded-data file holding one
named variable with its data, axes and attributes. -/
structure NCFile where
  varName : String
  data : Arr3
  axislist : List Axis
  attributes : List (String × String)

/-- Modelled from the spec: `funcs.readNC` opens a file and returns the
named variable as an `NCVAR`; a missing variable identifier is a fatal
VariableNotFound error. -/
def readNC (f : NCFile) (varid : String) : Except PipeError NCVAR :=
  if f.varName = varid then
    .ok (mkNCVAR f.data varid f.axislist f.attributes)
  else
    .error (.variableNotFound varid)

/-- Modelled from the spec: `funcs.saveNC` serializes a field with its
data, axes and attributes to the output path, overwriting any existing
file there. -/
def saveNC (_path : String) (v : NCVAR) : NCFile :=
  ⟨v.id, v.data, v.axislist, v.attributes⟩

/-- `os.path.join(".", "uflux_s_6_1984_Jan.nc")`. -/
def UFLUX_FILE : String := "./uflux_s_6_1984_Jan.nc"

/-- `os.path.join(".", "vflux_s_6_1984_Jan.nc")`. -/
def VFLUX_FILE : String := "./vflux_s_6_1984_Jan.nc"

/-- `os.path.join(".", "ivt_s_6_1984_Jan.nc")`. -/
def OUTPUTFILE : String := "./ivt_s_6_1984_Jan.nc"

/-- The message of the exception raised when the u-file is absent. -/
def uMissingMsg : String :=
  "UFLUX_FILE not found. Please make sure you downloaded the data file and save to the same dir as the notebook file."

/-- The message of the exception raised when the v-file is absent. -/
def vMissingMsg : String :=
  "VFLUX_FILE not found. Please make sure you downloaded the data file and save to the same dir as the notebook file."

/-- Checked list indexing, modelling Python sequence indexing: an index out
of range raises IndexError. -/
def listGetE (xs : List α) (i : Nat) : Except PipeError α :=
  match xs.get? i with
  | some x => .ok x
  | none => .error .indexError

/-- Modelled from the spec: `getTime` returns the time axis values, the
first axis in the (time, latitude, longitude) ordering. -/
def getTime (v : NCVAR) : List ℚ :=
  match v.axislist with
  | a :: _ => a.values
  | [] => []

/-- Indexing a numpy array along its first (time) dimension, as in
`uflux.data[idx]`: the 2-D slice at step `t`, an IndexError when `t` is
out of bounds. -/
def index0 (a : Arr3) (t : Nat) : Except PipeError (Nat → Nat → Option ℝ) :=
  if t < a.nt then .ok (a.val t) else .error .indexError

/-- The data the plotting cell assembles: the selected time stamp, the
three 2-D slices in plotting order, and the panel titles. -/
structure PlotOut where
  timeStr : ℚ
  panels : List (Nat → Nat → Option ℝ)
  titles : List String

/-- The plotting cell of the notebook: with `idx = 100` it reads
`uflux.getTime()[idx]` and the slices `uflux.data[idx]`, `vflux.data[idx]`,
`ivt.data[idx]`. -/
def plotStep (uflux vflux ivt : NCVAR) : Except PipeError PlotOut := do
  let timeStr ← listGetE (getTime uflux) 100
  let su ← index0 uflux.data 100
  let sv ← index0 vflux.data 100
  let si ← index0 ivt.data 100
  pure ⟨timeStr, [su, sv, si], ["U", "V", "IVT"]⟩

/-- Observable side-effect events of the pipeline, in program order. -/
inductive Event where
  | checkExists (path : String)
  | openFile (path : String)
  | compute
  | save (path : String)
  deriving DecidableEq

/-- The values a successful run ends with: the three fields as they stand
at the end of the script, the written output file, and the outcome of the
plotting cell. -/
structure NotebookOut where
  uflux : NCVAR
  vflux : NCVAR
  ivt : NCVAR
  saved : NCFile
  plot : Except PipeError PlotOut

/-- The notebook pipeline over a file system mapping paths to file
contents: the two existence checks, the two loads, the magnitude
computation, the save and the plot, together with the trace of events
performed before the run ended. -/
noncomputable def runNotebook (fs : String → Option NCFile) :
    List Event × Except PipeError NotebookOut :=
  match fs UFLUX_FILE with
  | none => ([.checkExists UFLUX_FILE], .error (.missingInputFile uMissingMsg))
  | some fu =>
    match fs VFLUX_FILE with
    | none =>
      ([.checkExists UFLUX_FILE, .checkExists VFLUX_FILE],
       .error (.missingInputFile vMissingMsg))
    | some fv =>
      let evs0 := [Event.checkExists UFLUX_FILE, Event.checkExists VFLUX_FILE]
      match readNC fu "p71.162" with
      | .error e => (evs0 ++ [.openFile UFLUX_FILE], .error e)
      | .ok uflux =>
        match readNC fv "p72.162" with
        | .error e =>
          (evs0 ++ [.openFile UFLUX_FILE, .openFile VFLUX_FILE], .error e)
        | .ok vflux =>
          let evs1 := evs0 ++ [Event.openFile UFLUX_FILE, Event.openFile VFLUX_FILE]
          match computeIVT uflux vflux with
          | .error e => (evs1, .error e)
          | .ok ivt =>
            (evs1 ++ [Event.compute, Event.save OUTPUTFILE],
             .ok ⟨uflux, vflux, ivt, saveNC OUTPUTFILE ivt,
                  plotStep uflux vflux ivt⟩)

/-! Helper lemmas about broadcasting and the magnitude computation. -/

theorem bdim_eq_of_lt {d t : Nat} (h : t < d) : bdim d t = t := by
  unfold bdim
  split
  · omega
  · rfl

theorem compatDim_self (a : Nat) : compatDim a a := Or.inl rfl

theorem compat3_self (a : Arr3) : compat3 a a :=
  ⟨compatDim_self _, compatDim_self _, compatDim_self _⟩

theorem compatDim_symm {a b : Nat} (h : compatDim a b) : compatDim b a := by
  rcases h with h | h | h
  · exact Or.inl h.symm
  · exact Or.inr (Or.inr h)
  · exact Or.inr (Or.inl h)

theorem compat3_symm {a b : Arr3} (h : compat3 a b) : compat3 b a :=
  ⟨compatDim_symm h.1, compatDim_symm h.2.1, compatDim_symm h.2.2⟩

theorem sameShape_compat3 {a b : Arr3} (h : sameShape a b) : compat3 a b :=
  ⟨Or.inl h.1, Or.inl h.2.1, Or.inl h.2.2⟩

theorem bcast2_self_nt (f : ℝ → ℝ → ℝ) (a : Arr3) :
    (bcast2 f a a).nt = a.nt := Nat.max_self _

theorem compat3_bcast2_self {f g : ℝ → ℝ → ℝ} {u v : Arr3} :
    compat3 (bcast2 f u u) (bcast2 g v v) ↔ compat3 u v := by
  simp [compat3, bcast2, Nat.max_self]

theorem except_bind_ok (a : α) (f : α → Except ε β) :
    (Except.ok a : Except ε α) >>= f = f a := rfl

theorem except_bind_error (e : ε) (f : α → Except ε β) :
    (Except.error e : Except ε α) >>= f = .error e := rfl

/-- The magnitude computation succeeds exactly when the shapes broadcast,
and then yields `ivtArr`. -/
theorem ivtRaw_eq (u v : Arr3) :
    ivtRaw u v =
      if compat3 u v then .ok (ivtArr u v) else .error .broadcastError := by
  by_cases h : compat3 u v
  · rw [if_pos h]
    simp only [ivtRaw, elemwise2, if_pos (compat3_self u), if_pos (compat3_self v),
      except_bind_ok]
    rw [if_pos (compat3_bcast2_self.mpr h)]
    simp only [except_bind_ok]
    rfl
  · rw [if_neg h]
    simp only [ivtRaw, elemwise2, if_pos (compat3_self u), if_pos (compat3_self v),
      except_bind_ok]
    rw [if_neg (fun hc => h (compat3_bcast2_self.mp hc))]
    simp only [except_bind_error]

theorem ivtRaw_ok {u v : Arr3} (h : compat3 u v) :
    ivtRaw u v = .ok (ivtArr u v) := by
  rw [ivtRaw_eq, if_pos h]

theorem ivtRaw_ok_inv {u v : Arr3} {w : Arr3} (h : ivtRaw u v = .ok w) :
    w = ivtArr u v := by
  rw [ivtRaw_eq] at h
  by_cases hc : compat3 u v
  · rw [if_pos hc] at h
    exact (Except.ok.injEq _ _ ▸ h).symm
  · rw [if_neg hc] at h
    exact absurd h (by simp)

/-- The value of the magnitude array at an in-bounds cell where both inputs
are unmasked, for identically shaped inputs. -/
theorem ivtArr_val_some {u v : Arr3} (h : sameShape u v) {t i j : Nat}
    (ht : t < u.nt) (hi : i < u.nlat) (hj : j < u.nlon) {x y : ℝ}
    (hx : u.val t i j = some x) (hy : v.val t i j = some y) :
    (ivtArr u v).val t i j = some (Real.sqrt (x ^ 2 + y ^ 2)) := by
  obtain ⟨h1, h2, h3⟩ := h
  have hvt : t < v.nt := h1 ▸ ht
  have hvi : i < v.nlat := h2 ▸ hi
  have hvj : j < v.nlon := h3 ▸ hj
  simp only [ivtArr, ma_sqrt, bcast2, Nat.max_self,
    bdim_eq_of_lt ht, bdim_eq_of_lt hi, bdim_eq_of_lt hj,
    bdim_eq_of_lt hvt, bdim_eq_of_lt hvi, bdim_eq_of_lt hvj,
    hx, hy, Option.map₂_some_some, Option.some_bind]
  have hnn : ¬ (x * x + y * y < 0) := by
    push_neg
    exact add_nonneg (mul_self_nonneg x) (mul_self_nonneg y)
  rw [if_neg hnn]
  have hsq : x * x + y * y = x ^ 2 + y ^ 2 := by ring
  rw [hsq]

/-- A masked cell of either input yields a masked magnitude cell, for
identically shaped inputs. -/
theorem ivtArr_val_none {u v : Arr3} (h : sameShape u v) {t i j : Nat}
    (ht : t < u.nt) (hi : i < u.nlat) (hj : j < u.nlon)
    (hm : u.val t i j = none ∨ v.val t i j = none) :
    (ivtArr u v).val t i j = none := by
  obtain ⟨h1, h2, h3⟩ := h
  have hvt : t < v.nt := h1 ▸ ht
  have hvi : i < v.nlat := h2 ▸ hi
  have hvj : j < v.nlon := h3 ▸ hj
  simp only [ivtArr, ma_sqrt, bcast2, Nat.max_self,
    bdim_eq_of_lt ht, bdim_eq_of_lt hi, bdim_eq_of_lt hj,
    bdim_eq_of_lt hvt, bdim_eq_of_lt hvi, bdim_eq_of_lt hvj]
  rcases hm with hm | hm
  · rw [hm]
    simp [Option.map₂_none_left]
  · rw [hm]
    simp [Option.map₂_none_right]

theorem computeIVT_ok {u v : NCVAR} (h : compat3 u.data v.data) :
    computeIVT u v = .ok (ivtVar u v) := by
  unfold computeIVT
  rw [ivtRaw_ok h]
  rfl

theorem computeIVT_ok_inv {u v w : NCVAR} (h : computeIVT u v = .ok w) :
    w = ivtVar u v := by
  unfold computeIVT at h
  cases hr : ivtRaw u.data v.data with
  | error e =>
    rw [hr] at h
    exact absurd h (by simp [Except.map])
  | ok d =>
    rw [hr] at h
    simp only [Except.map] at h
    cases h
    rw [ivtRaw_ok_inv hr]
    rfl

/-- A successful run of the pipeline: both checks pass, both loads succeed,
the shapes broadcast, the derived field is written and the plot is taken
from the three fields. -/
theorem runNotebook_ok {fs : String → Option NCFile} {fu fv : NCFile}
    {u v : NCVAR}
    (hu : fs UFLUX_FILE = some fu) (hv : fs VFLUX_FILE = some fv)
    (hru : readNC fu "p71.162" = .ok u) (hrv : readNC fv "p72.162" = .ok v)
    (hc : compat3 u.data v.data) :
    runNotebook fs =
      ([.checkExists UFLUX_FILE, .checkExists VFLUX_FILE,
        .openFile UFLUX_FILE, .openFile VFLUX_FILE,
        .compute, .save OUTPUTFILE],
       .ok ⟨u, v, ivtVar u v, saveNC OUTPUTFILE (ivtVar u v),
            plotStep u v (ivtVar u v)⟩) := by
  unfold runNotebook
  simp only [hu, hv, hru, hrv, computeIVT_ok hc]
  rfl

/-! Concrete fields and file systems used to witness the claims. -/

/-- The 1x1x1 u input of the end-to-end test: u = [[3.0]]. -/
noncomputable def uArr0 : Arr3 := ⟨1, 1, 1, fun _ _ _ => some 3⟩

/-- The 1x1x1 v input of the end-to-end test: v = [[4.0]]. -/
noncomputable def vArr0 : Arr3 := ⟨1, 1, 1, fun _ _ _ => some 4⟩

/-- One-point coordinate axes for the 1x1x1 grid. -/
def axes0 : List Axis := [⟨"time", [0]⟩, ⟨"latitude", [10]⟩, ⟨"longitude", [0]⟩]

/-- The u input file of the end-to-end test. -/
noncomputable def uFile0 : NCFile :=
  ⟨"p71.162", uArr0, axes0, [("units", "kg m-1 s-1")]⟩

/-- The v input file of the end-to-end test. -/
noncomputable def vFile0 : NCFile :=
  ⟨"p72.162", vArr0, axes0, [("units", "kg m-1 s-1")]⟩

/-- A file system holding both input files of the end-to-end test. -/
noncomputable def fs0 : String → Option NCFile := fun p =>
  if p = UFLUX_FILE then some uFile0
  else if p = VFLUX_FILE then some vFile0
  else none

/-- The u field as loaded from `uFile0`. -/
noncomputable def uVar0 : NCVAR :=
  mkNCVAR uArr0 "p71.162" axes0 [("units", "kg m-1 s-1")]

/-- The v field as loaded from `vFile0`. -/
noncomputable def vVar0 : NCVAR :=
  mkNCVAR vArr0 "p72.162" axes0 [("units", "kg m-1 s-1")]

theorem fs0_u : fs0 UFLUX_FILE = some uFile0 := by
  unfold fs0
  rw [if_pos rfl]

theorem fs0_v : fs0 VFLUX_FILE = some vFile0 := by
  unfold fs0
  rw [if_neg (by decide), if_pos rfl]

theorem readNC_u0 : readNC uFile0 "p71.162" = .ok uVar0 := by
  unfold readNC
  rw [if_pos (show uFile0.varName = "p71.162" from rfl)]
  rfl

theorem readNC_v0 : readNC vFile0 "p72.162" = .ok vVar0 := by
  unfold readNC
  rw [if_pos (show vFile0.varName = "p72.162" from rfl)]
  rfl

/-- The event trace of a fully successful run. -/
def evts0 : List Event :=
  [.checkExists UFLUX_FILE, .checkExists VFLUX_FILE,
   .openFile UFLUX_FILE, .openFile VFLUX_FILE, .compute, .save OUTPUTFILE]

/-- The output of the end-to-end 1x1x1 run. -/
noncomputable def out0 : NotebookOut :=
  ⟨uVar0, vVar0, ivtVar uVar0 vVar0, saveNC OUTPUTFILE (ivtVar uVar0 vVar0),
   plotStep uVar0 vVar0 (ivtVar uVar0 vVar0)⟩

theorem run_fs0 : runNotebook fs0 = (evts0, .ok out0) :=
  runNotebook_ok fs0_u fs0_v readNC_u0 readNC_v0
    ⟨Or.inl rfl, Or.inl rfl, Or.inl rfl⟩

/-! The claims. -/

/-- Claim C1: for equally shaped inputs the magnitude computer succeeds and
its value at every in-bounds cell (t, i, j) with unmasked inputs x and y is
sqrt(x^2 + y^2), depending on no other cell or time step; and in the
end-to-end 1x1x1 run with u = [[3.0]] and v = [[4.0]] the computed
magnitude is [[5.0]] and the written output holds a variable named ivt
with that value and the u field's axes. -/
theorem claim_c1 :
    (∀ (u v : Arr3) (t i j : Nat) (x y : ℝ), sameShape u v →
      t < u.nt → i < u.nlat → j < u.nlon →
      u.val t i j = some x → v.val t i j = some y →
      ivtRaw u v = .ok (ivtArr u v) ∧
        (ivtArr u v).val t i j = some (Real.sqrt (x ^ 2 + y ^ 2))) ∧
    (∃ out : NotebookOut, (runNotebook fs0).2 = .ok out ∧
      out.saved.varName = "ivt" ∧
      out.saved.data.val 0 0 0 = some 5 ∧
      out.saved.axislist = uVar0.axislist) := by
  constructor
  · intro u v t i j x y hs ht hi hj hx hy
    exact ⟨ivtRaw_ok (sameShape_compat3 hs), ivtArr_val_some hs ht hi hj hx hy⟩
  · refine ⟨out0, by rw [run_fs0], rfl, ?_, rfl⟩
    show (ivtArr uArr0 vArr0).val 0 0 0 = some 5
    rw [ivtArr_val_some (u := uArr0) (v := vArr0) ⟨rfl, rfl, rfl⟩
      Nat.one_pos Nat.one_pos Nat.one_pos rfl rfl]
    have h25 : ((3 : ℝ) ^ 2 + 4 ^ 2) = 5 ^ 2 := by norm_num
    rw [h25, Real.sqrt_sq (by norm_num : (0 : ℝ) ≤ 5)]

theorem claim_c1_witness :
    ivtRaw uArr0 vArr0 = .ok (ivtArr uArr0 vArr0) ∧
    (ivtArr uArr0 vArr0).val 0 0 0 = some (Real.sqrt ((3 : ℝ) ^ 2 + 4 ^ 2)) :=
  claim_c1.1 uArr0 vArr0 0 0 0 3 4 ⟨rfl, rfl, rfl⟩
    Nat.one_pos Nat.one_pos Nat.one_pos rfl rfl

/-- Claim C2: a missing u-file ends the run with a fatal MissingInputFile
error right after the first existence check — before the v-file check,
before any file is opened and before any computation; a missing v-file
(with the u-file present) raises the same fatal error right after the two
existence checks, likewise before any open or computation, as the exact
event traces show. -/
theorem claim_c2 :
    (∀ fs : String → Option NCFile, fs UFLUX_FILE = none →
      runNotebook fs =
        ([Event.checkExists UFLUX_FILE],
         .error (.missingInputFile uMissingMsg))) ∧
    (∀ (fs : String → Option NCFile) (fu : NCFile),
      fs UFLUX_FILE = some fu → fs VFLUX_FILE = none →
      runNotebook fs =
        ([Event.checkExists UFLUX_FILE, Event.checkExists VFLUX_FILE],
         .error (.missingInputFile vMissingMsg))) := by
  constructor
  · intro fs h
    unfold runNotebook
    simp only [h]
  · intro fs fu h1 h2
    unfold runNotebook
    simp only [h1, h2]

/-- A file system with no files at all. -/
def fsEmpty : String → Option NCFile := fun _ => none

/-- A file system holding only the u input file. -/
noncomputable def fsUOnly : String → Option NCFile := fun p =>
  if p = UFLUX_FILE then some uFile0 else none

theorem claim_c2_witness :
    runNotebook fsEmpty =
      ([Event.checkExists UFLUX_FILE],
       .error (.missingInputFile uMissingMsg)) ∧
    runNotebook fsUOnly =
      ([Event.checkExists UFLUX_FILE, Event.checkExists VFLUX_FILE],
       .error (.missingInputFile vMissingMsg)) :=
  ⟨claim_c2.1 fsEmpty rfl,
   claim_c2.2 fsUOnly uFile0
     (by unfold fsUOnly; rw [if_pos rfl])
     (by unfold fsUOnly; rw [if_neg (by decide)])⟩

/-- Claim C3: at every in-bounds cell of equally shaped inputs, a masked
cell in either input makes the magnitude cell masked. -/
theorem claim_c3 : ∀ (u v : Arr3) (t i j : Nat), sameShape u v →
    t < u.nt → i < u.nlat → j < u.nlon →
    (u.val t i j = none ∨ v.val t i j = none) →
    (ivtArr u v).val t i j = none :=
  fun _ _ _ _ _ hs ht hi hj hm => ivtArr_val_none hs ht hi hj hm

/-- A 1x1x1 field whose single cell is masked. -/
def uMasked0 : Arr3 := ⟨1, 1, 1, fun _ _ _ => none⟩

theorem claim_c3_witness : (ivtArr uMasked0 vArr0).val 0 0 0 = none :=
  claim_c3 uMasked0 vArr0 0 0 0 ⟨rfl, rfl, rfl⟩
    Nat.one_pos Nat.one_pos Nat.one_pos (Or.inl rfl)

/-- Claim C4: the derived field's metadata is exactly the fixed block
name/long_name/standard_name/title plus a units value that equals the
first input's units attribute when present and the empty string
otherwise. -/
theorem claim_c4 : ∀ u v : NCVAR,
    (ivtVar u v).attributes =
      [("name", "ivt"),
       ("long_name", "integrated vapor transport (IVT)"),
       ("standard_name", "integrated_vapor_transport"),
       ("title", "integrated vapor transport (IVT)"),
       ("units", getattrUnits u "")] ∧
    (∀ s, u.units = some s → getattrUnits u "" = s) ∧
    (u.units = none → getattrUnits u "" = "") := by
  intro u v
  refine ⟨rfl, ?_, ?_⟩
  · intro s hs
    rw [getattrUnits, hs]
    rfl
  · intro hs
    rw [getattrUnits, hs]
    rfl

theorem claim_c4_witness :
    (ivtVar uVar0 vVar0).attributes =
      [("name", "ivt"),
       ("long_name", "integrated vapor transport (IVT)"),
       ("standard_name", "integrated_vapor_transport"),
       ("title", "integrated vapor transport (IVT)"),
       ("units", getattrUnits uVar0 "")] ∧
    getattrUnits uVar0 "" = "kg m-1 s-1" :=
  ⟨(claim_c4 uVar0 vVar0).1, (claim_c4 uVar0 vVar0).2.1 _ rfl⟩

/-- Claim C5: the derived field's axes are exactly the first input's axes,
independent of the second input, and writing the field then re-reading it
yields the same axis values. -/
theorem claim_c5 : ∀ u v w : NCVAR,
    (ivtVar u v).axislist = u.axislist ∧
    (ivtVar u v).axislist = (ivtVar u w).axislist ∧
    (∃ r, readNC (saveNC OUTPUTFILE (ivtVar u v)) "ivt" = .ok r ∧
      r.axislist = u.axislist) := by
  intro u v w
  refine ⟨rfl, rfl,
    ⟨mkNCVAR (ivtArr u.data v.data) "ivt" u.axislist (ivtAttrs u), ?_, rfl⟩⟩
  unfold readNC
  rw [if_pos (show (saveNC OUTPUTFILE (ivtVar u v)).varName = "ivt" from rfl)]
  rfl

/-- A 2x1x1 all-ones field: its shape differs from 1x1x1 but broadcasts
against it. -/
noncomputable def cexArrA : Arr3 := ⟨2, 1, 1, fun _ _ _ => some 1⟩

/-- A 1x1x1 all-ones field. -/
noncomputable def cexArrB : Arr3 := ⟨1, 1, 1, fun _ _ _ => some 1⟩

/-- Claim C6 counterexample: the fields of shapes (2,1,1) and (1,1,1) have
unequal shapes, yet the magnitude computation succeeds, because numpy
broadcasting accepts any dimension pair in which one extent is 1. -/
theorem claim_c6_counterexample :
    ¬ sameShape cexArrA cexArrB ∧
    ivtRaw cexArrA cexArrB = .ok (ivtArr cexArrA cexArrB) := by
  constructor
  · intro h
    have h1 : cexArrA.nt = cexArrB.nt := h.1
    simp [cexArrA, cexArrB] at h1
  · exact ivtRaw_ok ⟨Or.inr (Or.inr rfl), Or.inl rfl, Or.inl rfl⟩

/-- Claim C6 amended: the pipeline performs no explicit shape or axis
check; for input fields whose shapes are not broadcast-compatible (some
dimension pair differs with neither extent equal to 1) the run passes both
existence checks and both opens and then fails with the numeric layer's
broadcast error during the element-wise magnitude computation, not caught
or translated; broadcast-compatible shapes, equal or not, succeed. -/
theorem claim_c6_amended :
    (∀ (fs : String → Option NCFile) (fu fv : NCFile) (u v : NCVAR),
      fs UFLUX_FILE = some fu → fs VFLUX_FILE = some fv →
      readNC fu "p71.162" = .ok u → readNC fv "p72.162" = .ok v →
      ¬ compat3 u.data v.data →
      runNotebook fs =
        ([Event.checkExists UFLUX_FILE, Event.checkExists VFLUX_FILE,
          Event.openFile UFLUX_FILE, Event.openFile VFLUX_FILE],
         .error PipeError.broadcastError)) ∧
    (∀ u v : Arr3, compat3 u v → ivtRaw u v = .ok (ivtArr u v)) := by
  constructor
  · intro fs fu fv u v hu hv hru hrv hc
    have hComp : computeIVT u v = .error PipeError.broadcastError := by
      unfold computeIVT
      rw [ivtRaw_eq, if_neg hc]
      rfl
    unfold runNotebook
    simp only [hu, hv, hru, hrv, hComp]
    rfl
  · exact fun _ _ h => ivtRaw_ok h

/-- A 3x1x1 all-ones field: not broadcast-compatible with 2x1x1. -/
noncomputable def badArrB : Arr3 := ⟨3, 1, 1, fun _ _ _ => some 1⟩

/-- A u input file with 2 time steps. -/
noncomputable def uFileBad : NCFile := ⟨"p71.162", cexArrA, axes0, []⟩

/-- A v input file with 3 time steps. -/
noncomputable def vFileBad : NCFile := ⟨"p72.162", badArrB, axes0, []⟩

/-- A file system holding the two shape-incompatible input files. -/
noncomputable def fsBad : String → Option NCFile := fun p =>
  if p = UFLUX_FILE then some uFileBad
  else if p = VFLUX_FILE then some vFileBad
  else none

theorem claim_c6_witness :
    runNotebook fsBad =
      ([Event.checkExists UFLUX_FILE, Event.checkExists VFLUX_FILE,
        Event.openFile UFLUX_FILE, Event.openFile VFLUX_FILE],
       .error PipeError.broadcastError) :=
  claim_c6_amended.1 fsBad uFileBad vFileBad
    (mkNCVAR cexArrA "p71.162" axes0 [])
    (mkNCVAR badArrB "p72.162" axes0 [])
    (by unfold fsBad; rw [if_pos rfl])
    (by unfold fsBad; rw [if_neg (by decide), if_pos rfl])
    (by unfold readNC
        rw [if_pos (show uFileBad.varName = "p71.162" from rfl)]
        rfl)
    (by unfold readNC
        rw [if_pos (show vFileBad.varName = "p72.162" from rfl)]
        rfl)
    (by intro h
        rcases h.1 with h1 | h1 | h1 <;> simp [cexArrA, badArrB, mkNCVAR] at h1)

theorem bcast2_comm (f : ℝ → ℝ → ℝ) (hf : ∀ a b, f a b = f b a)
    (a b : Arr3) : bcast2 f a b = bcast2 f b a := by
  unfold bcast2
  congr 1
  · exact Nat.max_comm _ _
  · exact Nat.max_comm _ _
  · exact Nat.max_comm _ _
  · funext t i j
    exact Option.map₂_comm hf

theorem ivtArr_comm (u v : Arr3) : ivtArr u v = ivtArr v u := by
  unfold ivtArr
  rw [bcast2_comm (fun x y => x + y) (fun a b => add_comm a b)]

/-- Claim C7: the magnitude computation is commutative in its data values:
for equally shaped fields, magnitude(u, v) = magnitude(v, u). -/
theorem claim_c7 : ∀ u v : Arr3, sameShape u v → ivtRaw u v = ivtRaw v u := by
  intro u v hs
  rw [ivtRaw_ok (sameShape_compat3 hs),
    ivtRaw_ok (compat3_symm (sameShape_compat3 hs)), ivtArr_comm]

theorem claim_c7_witness : ivtRaw uArr0 vArr0 = ivtRaw vArr0 uArr0 :=
  claim_c7 uArr0 vArr0 ⟨rfl, rfl, rfl⟩

/-- The all-zero field of the same shape as `u`. -/
noncomputable def zeroLike (u : Arr3) : Arr3 :=
  ⟨u.nt, u.nlat, u.nlon, fun _ _ _ => some 0⟩

/-- Claim C8: the magnitude of u against an all-zero second field is the
element-wise absolute value of u at every in-bounds cell (masked cells
staying masked). -/
theorem claim_c8 : ∀ (u : Arr3) (t i j : Nat),
    t < u.nt → i < u.nlat → j < u.nlon →
    ivtRaw u (zeroLike u) = .ok (ivtArr u (zeroLike u)) ∧
    (ivtArr u (zeroLike u)).val t i j = (u.val t i j).map (fun x => |x|) := by
  intro u t i j ht hi hj
  refine ⟨ivtRaw_ok (sameShape_compat3 ⟨rfl, rfl, rfl⟩), ?_⟩
  cases hx : u.val t i j with
  | none =>
    rw [Option.map_none']
    exact ivtArr_val_none (u := u) (v := zeroLike u) ⟨rfl, rfl, rfl⟩ ht hi hj
      (Or.inl hx)
  | some x =>
    rw [ivtArr_val_some (u := u) (v := zeroLike u) (y := 0) ⟨rfl, rfl, rfl⟩
        ht hi hj hx rfl,
      Option.map_some']
    have hz : x ^ 2 + ((0 : ℝ)) ^ 2 = x ^ 2 := by ring
    rw [hz, Real.sqrt_sq_eq_abs]

theorem claim_c8_witness :
    ivtRaw uArr0 (zeroLike uArr0) = .ok (ivtArr uArr0 (zeroLike uArr0)) ∧
    (ivtArr uArr0 (zeroLike uArr0)).val 0 0 0 =
      (uArr0.val 0 0 0).map (fun x => |x|) :=
  claim_c8 uArr0 0 0 0 Nat.one_pos Nat.one_pos Nat.one_pos

/-- Claim C9: no field is mutated after creation: in every successful run
the u and v fields at the end of the script are exactly the fields the
loader produced from the input files, the derived field is exactly the one
the computer produced from those two, and the writer and the visualizer
received those same unchanged fields. -/
theorem claim_c9 : ∀ (fs : String → Option NCFile) (evs : List Event)
    (out : NotebookOut), runNotebook fs = (evs, .ok out) →
    (∃ fu, fs UFLUX_FILE = some fu ∧ readNC fu "p71.162" = .ok out.uflux) ∧
    (∃ fv, fs VFLUX_FILE = some fv ∧ readNC fv "p72.162" = .ok out.vflux) ∧
    out.ivt = ivtVar out.uflux out.vflux ∧
    out.saved = saveNC OUTPUTFILE out.ivt ∧
    out.plot = plotStep out.uflux out.vflux out.ivt := by
  intro fs evs out h
  unfold runNotebook at h
  cases hfu : fs UFLUX_FILE with
  | none =>
    simp only [hfu] at h
    simp at h
  | some fu =>
    simp only [hfu] at h
    cases hfv : fs VFLUX_FILE with
    | none =>
      simp only [hfv] at h
      simp at h
    | some fv =>
      simp only [hfv] at h
      cases hru : readNC fu "p71.162" with
      | error e =>
        simp only [hru] at h
        simp at h
      | ok uflux =>
        simp only [hru] at h
        cases hrv : readNC fv "p72.162" with
        | error e =>
          simp only [hrv] at h
          simp at h
        | ok vflux =>
          simp only [hrv] at h
          cases hci : computeIVT uflux vflux with
          | error e =>
            simp only [hci] at h
            simp at h
          | ok ivt =>
            simp only [hci] at h
            have h2 : Except.ok (ε := PipeError)
                (⟨uflux, vflux, ivt, saveNC OUTPUTFILE ivt,
                  plotStep uflux vflux ivt⟩ : NotebookOut) = Except.ok out :=
              congrArg Prod.snd h
            have h3 : (⟨uflux, vflux, ivt, saveNC OUTPUTFILE ivt,
                plotStep uflux vflux ivt⟩ : NotebookOut) = out := by
              injection h2
            subst h3
            exact ⟨⟨fu, rfl, hru⟩, ⟨fv, rfl, hrv⟩,
              computeIVT_ok_inv hci, rfl, rfl⟩

theorem claim_c9_witness :
    (∃ fu, fs0 UFLUX_FILE = some fu ∧ readNC fu "p71.162" = .ok out0.uflux) ∧
    (∃ fv, fs0 VFLUX_FILE = some fv ∧ readNC fv "p72.162" = .ok out0.vflux) ∧
    out0.ivt = ivtVar out0.uflux out0.vflux ∧
    out0.saved = saveNC OUTPUTFILE out0.ivt ∧
    out0.plot = plotStep out0.uflux out0.vflux out0.ivt :=
  claim_c9 fs0 evts0 out0 run_fs0

theorem listGetE_ok {xs : List α} {i : Nat} (h : i < xs.length) :
    listGetE xs i = .ok (xs.get ⟨i, h⟩) := by
  unfold listGetE
  rw [List.get?_eq_get h]

theorem listGetE_err {xs : List α} {i : Nat} (h : xs.length ≤ i) :
    listGetE xs i = .error PipeError.indexError := by
  unfold listGetE
  rw [List.get?_eq_none.mpr h]

/-- Claim C10: the visualizer reads the fixed time index 100 of the u time
axis and of all three data arrays, so it succeeds exactly on inputs with at
least 101 time steps and fails with an IndexError as soon as the time axis
or any of the three fields has 100 or fewer. -/
theorem claim_c10 : ∀ uflux vflux ivt : NCVAR,
    ((100 < (getTime uflux).length ∧ 100 < uflux.data.nt ∧
      100 < vflux.data.nt ∧ 100 < ivt.data.nt) →
      ∃ p, plotStep uflux vflux ivt = .ok p ∧
        p.panels = [uflux.data.val 100, vflux.data.val 100, ivt.data.val 100]) ∧
    ((getTime uflux).length ≤ 100 ∨ uflux.data.nt ≤ 100 ∨
      vflux.data.nt ≤ 100 ∨ ivt.data.nt ≤ 100 →
      plotStep uflux vflux ivt = .error PipeError.indexError) := by
  intro uflux vflux ivt
  constructor
  · rintro ⟨h1, h2, h3, h4⟩
    refine ⟨⟨(getTime uflux).get ⟨100, h1⟩,
      [uflux.data.val 100, vflux.data.val 100, ivt.data.val 100],
      ["U", "V", "IVT"]⟩, ?_, rfl⟩
    unfold plotStep index0
    rw [listGetE_ok h1]
    simp only [except_bind_ok, if_pos h2, if_pos h3, if_pos h4]
    rfl
  · intro hle
    unfold plotStep index0
    by_cases h1 : 100 < (getTime uflux).length
    · rw [listGetE_ok h1]
      simp only [except_bind_ok]
      by_cases h2 : 100 < uflux.data.nt
      · rw [if_pos h2]
        simp only [except_bind_ok]
        by_cases h3 : 100 < vflux.data.nt
        · rw [if_pos h3]
          simp only [except_bind_ok]
          have h4 : ¬ 100 < ivt.data.nt := by
            rcases hle with h | h | h | h <;> omega
          rw [if_neg h4]
          rfl
        · rw [if_neg h3]
          rfl
      · rw [if_neg h2]
        rfl
    · rw [listGetE_err (Nat.not_lt.mp h1)]
      rfl

/-- A 101x1x1 all-ones field. -/
noncomputable def bigArr : Arr3 := ⟨101, 1, 1, fun _ _ _ => some 1⟩

/-- A field with 101 time steps and a 101-entry time axis. -/
noncomputable def bigVar : NCVAR :=
  mkNCVAR bigArr "x" [⟨"time", List.replicate 101 0⟩] []

theorem claim_c10_witness :
    (∃ p, plotStep bigVar bigVar bigVar = .ok p ∧
      p.panels = [bigVar.data.val 100, bigVar.data.val 100,
        bigVar.data.val 100]) ∧
    plotStep uVar0 vVar0 (ivtVar uVar0 vVar0) = .error PipeError.indexError :=
  ⟨(claim_c10 bigVar bigVar bigVar).1
    ⟨by simp [getTime, bigVar, mkNCVAR],
     by norm_num [bigVar, mkNCVAR, bigArr],
     by norm_num [bigVar, mkNCVAR, bigArr],
     by norm_num [bigVar, mkNCVAR, bigArr]⟩,
   (claim_c10 uVar0 vVar0 (ivtVar uVar0 vVar0)).2
    (Or.inr (Or.inl (by norm_num [uVar0, mkNCVAR, uArr0])))⟩

end ARTracker
